import Mathlib

/-!
Shallow embedding of the lib-voxels-directories resolution chain.

The repository resolves per-category (config/data/state/runtime) base
directories by trying an ordered list of strategies (application override
variable, standard XDG variable, filesystem-hierarchy fallback), verifying
each candidate, and layering an application-specific subdirectory on top.

Layers modelled here, mirroring the source tree:
* `Xdg`    — src/src/voxels/voxels_xdg/xdg/{config,data,runtime,state}.rs
             (the current base-resolver layer; `?`-propagated env errors,
             fall-through priority loop);
* `BaseCfg`— src/src/base/config.rs (the historical base-resolver layer;
             `.unwrap()` on env errors, `return match` in the loop);
* `VX`     — src/src/voxels/voxels_xdg/{config,data}.rs (application layer
             with a cached path, optional DBus strategy);
* `Apps`   — src/src/voxels/{config,data}.rs (application-feature layer).

Paths: `PathBuf` is modelled as an absoluteness flag plus a component list;
`PathBuf::join` with a relative argument appends components, and an absolute
argument replaces the path, as in `std::path`.

Injected collaborators (the `EnvInt`, `FsInt`, verifier and base-resolver
traits) are modelled as function-valued fields: every method of those traits
in this repository takes `&self`, so a trait object is observably a tuple of
pure functions.  Effectful calls that the repository's own mockall tests
count (`.once()` expectations) are instrumented: instrumented definitions
additionally return the ordered list of probes or the number of collaborator
invocations they performed.

Rust panics (`unwrap`, `expect`, `unreachable!`) are modelled by the
`panicked` constructor of `ROut`.
-/

namespace VoxelsDirs

/-- Model of `std::path::PathBuf`: an absoluteness flag plus components. -/
structure RPath where
  isAbs : Bool
  comps : List String
deriving DecidableEq, Repr

/-- Rust `PathBuf::join`: an absolute argument replaces the whole path, a relative
one appends its components. -/
def RPath.join (p q : RPath) : RPath :=
  if q.isAbs then q else ⟨p.isAbs, p.comps ++ q.comps⟩

/-- Outcome of running a Rust call: normal return, recoverable error value,
or an abort (`panic!` / `unwrap` on an error / `unreachable!`). -/
inductive ROut (ε α : Type) where
  | ok (a : α)
  | err (e : ε)
  | panicked
deriving DecidableEq, Repr

/-- Rust `std::env::VarError` (what `EnvInt::get_path_from_environment` returns on
failure). -/
inductive VarError where
  | NotPresent
deriving DecidableEq, Repr

/-- Rust `BaseDirectoryError` (src/src/base.rs and the xdg module): the single
recoverable error of the base-resolver layer. -/
inductive BaseDirectoryError where
  | NoCandidate
deriving DecidableEq, Repr

/-- Rust `VoxelsDirectoryError` (src/src/voxels/mod.rs). -/
inductive VoxelsDirectoryError where
  | NoCandidate
deriving DecidableEq, Repr

/-- Rust `impl From<BaseDirectoryError> for VoxelsDirectoryError`
(src/src/voxels/mod.rs lines 28-34). -/
def VoxelsDirectoryError.fromBase : BaseDirectoryError → VoxelsDirectoryError
  | BaseDirectoryError.NoCandidate => VoxelsDirectoryError.NoCandidate

/-- Modelled from the spec: the xdg module file declaring `BaseDirectoryError`
(`pub mod xdg;` in src/src/voxels/voxels_xdg/mod.rs has no body under src/) is
missing; per the spec's error taxonomy, `NoCandidate` "subsumes variable not
set", so the `?` conversion from `VarError` maps every variable failure to
`NoCandidate`. -/
def BaseDirectoryError.fromVar : VarError → BaseDirectoryError
  | VarError.NotPresent => BaseDirectoryError.NoCandidate

/-- The environment accessor `EnvInt::get_path_from_environment`: a variable
name yields a path or a "not present" failure. -/
def EnvMap : Type := String → Option RPath

/-- Rust `EnvInt::get_path_from_environment` as an `Except` value, as the Rust
trait returns `Result<PathBuf, VarError>`. -/
def getPathFromEnvironment (env : EnvMap) (name : String) : Except VarError RPath :=
  match env name with
  | some p => Except.ok p
  | none => Except.error VarError.NotPresent

/-- The filesystem accessor trait `FsInt` (src/src/filesystem.rs): probe
functions injected into the default verifiers.  (`exists` is a Lean keyword,
hence the prime.) -/
structure FsInt where
  exists' : RPath → Bool
  is_directory : RPath → Bool
  is_absolute : RPath → Bool

/-- One observable call made against the `FsInt` collaborator. -/
inductive FsProbe where
  | probeExists (p : RPath)
  | probeIsDir (p : RPath)
  | probeIsAbs (p : RPath)
deriving DecidableEq, Repr

/-- Rust `DefaultConfigVerifier::verify`
(src/src/voxels/voxels_xdg/xdg/config.rs lines 34-46), instrumented with the
ordered list of `FsInt` probes it performs. -/
def DefaultConfigVerifier.verifyT (fs : FsInt) (path : RPath) : Bool × List FsProbe :=
  if !fs.exists' path then (false, [FsProbe.probeExists path])
  else if !fs.is_directory path then (false, [FsProbe.probeExists path, FsProbe.probeIsDir path])
  else (true, [FsProbe.probeExists path, FsProbe.probeIsDir path])

/-- Rust `DefaultDataVerifier::verify`
(src/src/voxels/voxels_xdg/xdg/data.rs lines 33-49), instrumented. -/
def DefaultDataVerifier.verifyT (fs : FsInt) (path : RPath) : Bool × List FsProbe :=
  if !fs.exists' path then (false, [FsProbe.probeExists path])
  else if !fs.is_directory path then (false, [FsProbe.probeExists path, FsProbe.probeIsDir path])
  else if !fs.is_absolute path then
    (false, [FsProbe.probeExists path, FsProbe.probeIsDir path, FsProbe.probeIsAbs path])
  else (true, [FsProbe.probeExists path, FsProbe.probeIsDir path, FsProbe.probeIsAbs path])

/-- Rust `DefaultStateVerifier::verify`
(src/src/voxels/voxels_xdg/xdg/state.rs), instrumented; textually identical
checks to the data verifier. -/
def DefaultStateVerifier.verifyT (fs : FsInt) (path : RPath) : Bool × List FsProbe :=
  if !fs.exists' path then (false, [FsProbe.probeExists path])
  else if !fs.is_directory path then (false, [FsProbe.probeExists path, FsProbe.probeIsDir path])
  else if !fs.is_absolute path then
    (false, [FsProbe.probeExists path, FsProbe.probeIsDir path, FsProbe.probeIsAbs path])
  else (true, [FsProbe.probeExists path, FsProbe.probeIsDir path, FsProbe.probeIsAbs path])

/-- Rust `DefaultRuntimeVerifier::verify`
(src/src/voxels/voxels_xdg/xdg/runtime.rs lines 34-50), instrumented. -/
def DefaultRuntimeVerifier.verifyT (fs : FsInt) (path : RPath) : Bool × List FsProbe :=
  if !fs.exists' path then (false, [FsProbe.probeExists path])
  else if !fs.is_directory path then (false, [FsProbe.probeExists path, FsProbe.probeIsDir path])
  else if !fs.is_absolute path then
    (false, [FsProbe.probeExists path, FsProbe.probeIsDir path, FsProbe.probeIsAbs path])
  else (true, [FsProbe.probeExists path, FsProbe.probeIsDir path, FsProbe.probeIsAbs path])

/-- The spec's description of a verifier: an ordered list of (probe, outcome)
pairs evaluated left to right, short-circuiting on the first failing
predicate; returns the overall result and the probes actually evaluated. -/
def specShortCircuit : List (FsProbe × Bool) → Bool × List FsProbe
  | [] => (true, [])
  | (pr, b) :: rest =>
    if b then
      let r := specShortCircuit rest
      (r.1, pr :: r.2)
    else (false, [pr])

namespace Xdg

/-- Rust `ConfigDirectoryResolutionMethods`
(src/src/voxels/voxels_xdg/xdg/config.rs lines 80-85). -/
inductive ConfigDirectoryResolutionMethods where
  | FromXDG
  | FromFHS
  | FromVoxels
deriving DecidableEq, Repr

/-- Rust `ConfigDirectoryPriority` (src/src/voxels/voxels_xdg/xdg/config.rs
lines 87-89): a `BTreeMap<usize, _>` whose keys are always the contiguous
range `0..len` (both `default` and `set_all` insert exactly the keys
`0, 1, ...`), modelled as the list of values in key order. -/
structure ConfigDirectoryPriority where
  order : List ConfigDirectoryResolutionMethods
deriving DecidableEq, Repr

/-- Rust `ConfigDirectoryPriority::default` (lines 91-101): Voxels, then XDG,
then FHS. -/
def ConfigDirectoryPriority.default : ConfigDirectoryPriority :=
  ⟨[ConfigDirectoryResolutionMethods.FromVoxels,
    ConfigDirectoryResolutionMethods.FromXDG,
    ConfigDirectoryResolutionMethods.FromFHS]⟩

/-- Rust `ConfigDirectoryPriority::set_all` (lines 104-109): takes a
`[ConfigDirectoryResolutionMethods; 3]` and rebuilds keys 0, 1, 2. -/
def ConfigDirectoryPriority.set_all (m0 m1 m2 : ConfigDirectoryResolutionMethods) :
    ConfigDirectoryPriority :=
  ⟨[m0, m1, m2]⟩

/-- Rust `ConfigDirectoryPriority::get` (lines 111-113): a copy of the order. -/
def ConfigDirectoryPriority.get (p : ConfigDirectoryPriority) :
    List ConfigDirectoryResolutionMethods :=
  p.order

/-- Rust `ConfigDirectory` (src/src/voxels/voxels_xdg/xdg/config.rs lines
126-132).  The injected `EnvInt` and `ConfigVerifier` collaborators are
function-valued fields (all their trait methods take `&self`). -/
structure ConfigDirectory where
  config_path : Option RPath
  verifier : RPath → Bool
  env : EnvMap
  priority : ConfigDirectoryPriority

/-- Rust `ConfigDirectory::new` (lines 135-143). -/
def ConfigDirectory.new (env : EnvMap) (verifier : RPath → Bool) : ConfigDirectory :=
  ⟨none, verifier, env, ConfigDirectoryPriority.default⟩

/-- Rust `ConfigDirectory::using_fhs` (lines 147-157): `HOME` joined with
`".config/"`, then verified; env failure propagates via `?` as
`NoCandidate`. -/
def ConfigDirectory.using_fhs (self : ConfigDirectory) : Except BaseDirectoryError RPath :=
  match getPathFromEnvironment self.env "HOME" with
  | Except.error e => Except.error (BaseDirectoryError.fromVar e)
  | Except.ok path =>
    let config_path := path.join ⟨false, [".config"]⟩
    if self.verifier config_path then Except.ok config_path
    else Except.error BaseDirectoryError.NoCandidate

/-- Rust `ConfigDirectory::using_xdg` (lines 159-167): `XDG_CONFIG_HOME`,
verified. -/
def ConfigDirectory.using_xdg (self : ConfigDirectory) : Except BaseDirectoryError RPath :=
  match getPathFromEnvironment self.env "XDG_CONFIG_HOME" with
  | Except.error e => Except.error (BaseDirectoryError.fromVar e)
  | Except.ok config_path =>
    if self.verifier config_path then Except.ok config_path
    else Except.error BaseDirectoryError.NoCandidate

/-- Rust `ConfigDirectory::using_voxels` (lines 169-177): `VOXELS_CONFIG_HOME`,
verified. -/
def ConfigDirectory.using_voxels (self : ConfigDirectory) : Except BaseDirectoryError RPath :=
  match getPathFromEnvironment self.env "VOXELS_CONFIG_HOME" with
  | Except.error e => Except.error (BaseDirectoryError.fromVar e)
  | Except.ok path =>
    if self.verifier path then Except.ok path
    else Except.error BaseDirectoryError.NoCandidate

/-- The dispatch performed by the `match` inside `ConfigDirectory::resolve`'s
loop body (lines 181-203): which `using_*` operation a method selects. -/
def ConfigDirectory.useMethod (self : ConfigDirectory)
    (m : ConfigDirectoryResolutionMethods) : Except BaseDirectoryError RPath :=
  match m with
  | ConfigDirectoryResolutionMethods.FromXDG => self.using_xdg
  | ConfigDirectoryResolutionMethods.FromVoxels => self.using_voxels
  | ConfigDirectoryResolutionMethods.FromFHS => self.using_fhs

/-- The loop of `ConfigDirectory::resolve` (lines 180-204): walk the priority
entries in key order; return the first `using_*` success paired with its
method; keep iterating past failures. -/
def ConfigDirectory.resolveGo (self : ConfigDirectory) :
    List ConfigDirectoryResolutionMethods →
      Except BaseDirectoryError (RPath × ConfigDirectoryResolutionMethods)
  | [] => Except.error BaseDirectoryError.NoCandidate
  | m :: rest =>
    match self.useMethod m with
    | Except.ok p => Except.ok (p, m)
    | Except.error _ => self.resolveGo rest

/-- Rust `ConfigDirectory::resolve` (src/src/voxels/voxels_xdg/xdg/config.rs lines
179-206): iterate the priority order, falling through failed strategies;
`NoCandidate` once the list is exhausted. -/
def ConfigDirectory.resolve (self : ConfigDirectory) :
    Except BaseDirectoryError (RPath × ConfigDirectoryResolutionMethods) :=
  self.resolveGo self.priority.order

/-- Rust `impl Into<PathBuf> for ConfigDirectory` (lines 209-213):
`self.config_path.unwrap()`, a panic when the field is unpopulated. -/
def ConfigDirectory.intoPathBuf (self : ConfigDirectory) : ROut Empty RPath :=
  match self.config_path with
  | some p => ROut.ok p
  | none => ROut.panicked

/-- The public operations callable on an xdg-layer `ConfigDirectory`. -/
inductive ConfigOp where
  | opUsingFhs
  | opUsingXdg
  | opUsingVoxels
  | opResolve
deriving DecidableEq, Repr

/-- Run one public operation against an xdg-layer `ConfigDirectory`: every
operation takes the receiver by `&self`, so the caller's instance after the
call is the same record; the operation's result is returned alongside it. -/
def ConfigDirectory.applyOp (self : ConfigDirectory) (op : ConfigOp) :
    ConfigDirectory × Except BaseDirectoryError RPath :=
  match op with
  | ConfigOp.opUsingFhs => (self, self.using_fhs)
  | ConfigOp.opUsingXdg => (self, self.using_xdg)
  | ConfigOp.opUsingVoxels => (self, self.using_voxels)
  | ConfigOp.opResolve => (self, self.resolve.map Prod.fst)

/-- A call history against one instance, starting from `new`. -/
def ConfigDirectory.applyOps (self : ConfigDirectory) (ops : List ConfigOp) :
    ConfigDirectory :=
  ops.foldl (fun s op => (s.applyOp op).1) self

/-- Rust `DataDirectoryResolutionMethods`
(src/src/voxels/voxels_xdg/xdg/data.rs lines 60-65). -/
inductive DataDirectoryResolutionMethods where
  | FromXDG
  | FromFHS
  | FromVoxels
deriving DecidableEq, Repr

/-- Rust `DataDirectoryPriority` (lines 67-94), as the value list in key order. -/
structure DataDirectoryPriority where
  order : List DataDirectoryResolutionMethods
deriving DecidableEq, Repr

/-- Rust `DataDirectoryPriority::default` (lines 71-81). -/
def DataDirectoryPriority.default : DataDirectoryPriority :=
  ⟨[DataDirectoryResolutionMethods.FromVoxels,
    DataDirectoryResolutionMethods.FromXDG,
    DataDirectoryResolutionMethods.FromFHS]⟩

/-- Rust `DataDirectory` (src/src/voxels/voxels_xdg/xdg/data.rs lines 104-110). -/
structure DataDirectory where
  data_path : Option RPath
  verifier : RPath → Bool
  env : EnvMap
  priority : DataDirectoryPriority

/-- Rust `DataDirectory::new` (lines 112-122). -/
def DataDirectory.new (env : EnvMap) (verifier : RPath → Bool) : DataDirectory :=
  ⟨none, verifier, env, DataDirectoryPriority.default⟩

/-- Rust `DataDirectory::using_fhs` (lines 125-135): `HOME` joined with
`".local/share/"`, verified. -/
def DataDirectory.using_fhs (self : DataDirectory) : Except BaseDirectoryError RPath :=
  match getPathFromEnvironment self.env "HOME" with
  | Except.error e => Except.error (BaseDirectoryError.fromVar e)
  | Except.ok path =>
    let data_path := path.join ⟨false, [".local", "share"]⟩
    if self.verifier data_path then Except.ok data_path
    else Except.error BaseDirectoryError.NoCandidate

/-- Rust `DataDirectory::using_xdg` (lines 137-145): `XDG_DATA_HOME`, verified. -/
def DataDirectory.using_xdg (self : DataDirectory) : Except BaseDirectoryError RPath :=
  match getPathFromEnvironment self.env "XDG_DATA_HOME" with
  | Except.error e => Except.error (BaseDirectoryError.fromVar e)
  | Except.ok data_path =>
    if self.verifier data_path then Except.ok data_path
    else Except.error BaseDirectoryError.NoCandidate

/-- Rust `DataDirectory::using_voxels` (lines 147-155): `VOXELS_DATA_HOME`,
verified. -/
def DataDirectory.using_voxels (self : DataDirectory) : Except BaseDirectoryError RPath :=
  match getPathFromEnvironment self.env "VOXELS_DATA_HOME" with
  | Except.error e => Except.error (BaseDirectoryError.fromVar e)
  | Except.ok path =>
    if self.verifier path then Except.ok path
    else Except.error BaseDirectoryError.NoCandidate

/-- The dispatch inside `DataDirectory::resolve`'s loop body (lines
159-181). -/
def DataDirectory.useMethod (self : DataDirectory)
    (m : DataDirectoryResolutionMethods) : Except BaseDirectoryError RPath :=
  match m with
  | DataDirectoryResolutionMethods.FromXDG => self.using_xdg
  | DataDirectoryResolutionMethods.FromVoxels => self.using_voxels
  | DataDirectoryResolutionMethods.FromFHS => self.using_fhs

/-- The loop of `DataDirectory::resolve` (lines 157-184): first success in
priority order, falling through failures. -/
def DataDirectory.resolveGo (self : DataDirectory) :
    List DataDirectoryResolutionMethods →
      Except BaseDirectoryError (RPath × DataDirectoryResolutionMethods)
  | [] => Except.error BaseDirectoryError.NoCandidate
  | m :: rest =>
    match self.useMethod m with
    | Except.ok p => Except.ok (p, m)
    | Except.error _ => self.resolveGo rest

/-- Rust `DataDirectory::resolve` (src/src/voxels/voxels_xdg/xdg/data.rs lines
157-184). -/
def DataDirectory.resolve (self : DataDirectory) :
    Except BaseDirectoryError (RPath × DataDirectoryResolutionMethods) :=
  self.resolveGo self.priority.order

/-- Rust `RuntimeDirectoryResolutionMethods`
(src/src/voxels/voxels_xdg/xdg/runtime.rs lines 61-65): the runtime category
has two compiled-in strategies. -/
inductive RuntimeDirectoryResolutionMethods where
  | FromXDG
  | FromVoxels
deriving DecidableEq, Repr, Fintype

/-- Rust `RuntimeDirectoryPriority` (src/src/voxels/voxels_xdg/xdg/runtime.rs
lines 67-69), as the value list in key order. -/
structure RuntimeDirectoryPriority where
  order : List RuntimeDirectoryResolutionMethods
deriving DecidableEq, Repr

/-- Rust `RuntimeDirectoryPriority::default` (lines 71-79): inserts only
`FromVoxels` at key 0. -/
def RuntimeDirectoryPriority.default : RuntimeDirectoryPriority :=
  ⟨[RuntimeDirectoryResolutionMethods.FromVoxels]⟩

/-- Rust `RuntimeDirectoryPriority::set_all` (lines 82-87): takes a
`[RuntimeDirectoryResolutionMethods; 3]` — three entries — and inserts them
at keys 0, 1, 2. -/
def RuntimeDirectoryPriority.set_all (m0 m1 m2 : RuntimeDirectoryResolutionMethods) :
    RuntimeDirectoryPriority :=
  ⟨[m0, m1, m2]⟩

end Xdg

namespace BaseCfg

/-- Rust `ConfigDirectoryResolutionMethods` (src/src/base/config.rs lines
80-85). -/
inductive ConfigDirectoryResolutionMethods where
  | FromXDG
  | FromFHS
  | FromVoxels
deriving DecidableEq, Repr

/-- Rust `ConfigDirectoryPriority` of the historical layer (src/src/base/config.rs
lines 87-114), as the value list in key order; `default` is Voxels, XDG,
FHS, as in the xdg layer. -/
structure ConfigDirectoryPriority where
  order : List ConfigDirectoryResolutionMethods
deriving DecidableEq, Repr

/-- Rust `ConfigDirectoryPriority::default` (src/src/base/config.rs lines
91-101). -/
def ConfigDirectoryPriority.default : ConfigDirectoryPriority :=
  ⟨[ConfigDirectoryResolutionMethods.FromVoxels,
    ConfigDirectoryResolutionMethods.FromXDG,
    ConfigDirectoryResolutionMethods.FromFHS]⟩

/-- Rust `ConfigDirectory` (src/src/base/config.rs lines 126-132). -/
structure ConfigDirectory where
  config_path : Option RPath
  verifier : RPath → Bool
  env : EnvMap
  priority : ConfigDirectoryPriority

/-- Rust `ConfigDirectory::new` (src/src/base/config.rs lines 135-143). -/
def ConfigDirectory.new (env : EnvMap) (verifier : RPath → Bool) : ConfigDirectory :=
  ⟨none, verifier, env, ConfigDirectoryPriority.default⟩

/-- Rust `ConfigDirectory::using_fhs` (src/src/base/config.rs lines 147-157):
the env read is followed by `.unwrap()`, so an unset `HOME` aborts. -/
def ConfigDirectory.using_fhs (self : ConfigDirectory) : ROut BaseDirectoryError RPath :=
  match getPathFromEnvironment self.env "HOME" with
  | Except.error _ => ROut.panicked
  | Except.ok path =>
    let config_path := path.join ⟨false, [".config"]⟩
    if self.verifier config_path then ROut.ok config_path
    else ROut.err BaseDirectoryError.NoCandidate

/-- Rust `ConfigDirectory::using_xdg` (src/src/base/config.rs lines 159-167):
`.unwrap()` on the env read, so an unset `XDG_CONFIG_HOME` aborts. -/
def ConfigDirectory.using_xdg (self : ConfigDirectory) : ROut BaseDirectoryError RPath :=
  match getPathFromEnvironment self.env "XDG_CONFIG_HOME" with
  | Except.error _ => ROut.panicked
  | Except.ok config_path =>
    if self.verifier config_path then ROut.ok config_path
    else ROut.err BaseDirectoryError.NoCandidate

/-- Rust `ConfigDirectory::using_voxels` (src/src/base/config.rs lines 169-177):
`.unwrap()` on the env read, so an unset `VOXELS_CONFIG_HOME` aborts. -/
def ConfigDirectory.using_voxels (self : ConfigDirectory) : ROut BaseDirectoryError RPath :=
  match getPathFromEnvironment self.env "VOXELS_CONFIG_HOME" with
  | Except.error _ => ROut.panicked
  | Except.ok path =>
    if self.verifier path then ROut.ok path
    else ROut.err BaseDirectoryError.NoCandidate

/-- The dispatch inside `ConfigDirectory::resolve`'s loop body
(src/src/base/config.rs lines 181-209). -/
def ConfigDirectory.useMethod (self : ConfigDirectory)
    (m : ConfigDirectoryResolutionMethods) : ROut BaseDirectoryError RPath :=
  match m with
  | ConfigDirectoryResolutionMethods.FromXDG => self.using_xdg
  | ConfigDirectoryResolutionMethods.FromVoxels => self.using_voxels
  | ConfigDirectoryResolutionMethods.FromFHS => self.using_fhs

/-- Rust `ConfigDirectory::resolve` (src/src/base/config.rs lines 179-212): the
loop body is `return match ...`, so the call returns during the first
iteration — a failing first strategy yields `Err(NoCandidate)` without any
later strategy being tried; with an empty order the trailing
`unreachable!()` aborts. -/
def ConfigDirectory.resolve (self : ConfigDirectory) :
    ROut BaseDirectoryError (RPath × ConfigDirectoryResolutionMethods) :=
  match self.priority.order with
  | [] => ROut.panicked
  | m :: _ =>
    match self.useMethod m with
    | ROut.ok p => ROut.ok (p, m)
    | ROut.err _ => ROut.err BaseDirectoryError.NoCandidate
    | ROut.panicked => ROut.panicked

/-- Rust `impl Into<PathBuf> for ConfigDirectory` (src/src/base/config.rs lines
215-219): `self.config_path.unwrap()`. -/
def ConfigDirectory.intoPathBuf (self : ConfigDirectory) : ROut Empty RPath :=
  match self.config_path with
  | some p => ROut.ok p
  | none => ROut.panicked

/-- The public operations callable on a historical-layer `ConfigDirectory`;
each takes `&self`, so the instance is returned unchanged with the result. -/
def ConfigDirectory.applyOp (self : ConfigDirectory) (op : Xdg.ConfigOp) :
    ConfigDirectory × ROut BaseDirectoryError RPath :=
  match op with
  | Xdg.ConfigOp.opUsingFhs => (self, self.using_fhs)
  | Xdg.ConfigOp.opUsingXdg => (self, self.using_xdg)
  | Xdg.ConfigOp.opUsingVoxels => (self, self.using_voxels)
  | Xdg.ConfigOp.opResolve =>
    (self,
      match self.resolve with
      | ROut.ok pm => ROut.ok pm.1
      | ROut.err e => ROut.err e
      | ROut.panicked => ROut.panicked)

/-- A call history against one historical-layer instance. -/
def ConfigDirectory.applyOps (self : ConfigDirectory) (ops : List Xdg.ConfigOp) :
    ConfigDirectory :=
  ops.foldl (fun s op => (s.applyOp op).1) self

end BaseCfg

/-- Decidable equality for `Except` values (used by the record models whose
collaborator fields are `Except` outcomes). -/
instance exceptDecEq {ε α : Type} [DecidableEq ε] [DecidableEq α] :
    DecidableEq (Except ε α) := fun x y =>
  match x, y with
  | Except.ok a, Except.ok b =>
    if h : a = b then isTrue (by rw [h]) else isFalse (by simp [h])
  | Except.error e, Except.error f =>
    if h : e = f then isTrue (by rw [h]) else isFalse (by simp [h])
  | Except.ok _, Except.error _ => isFalse (by simp)
  | Except.error _, Except.ok _ => isFalse (by simp)

/-- Rust `std::fs::create_dir_all` on the final resolved path, over a filesystem
modelled as the list of existing directories: `mkdir -p` semantics, so an
already-existing directory is left alone and is not an error.  (A creation
failure for other reasons, e.g. permissions, aborts the Rust caller through
`.expect(..)`; that failure mode is outside the claims modelled here.) -/
def createDirAll (dirs : List RPath) (p : RPath) : List RPath :=
  if p ∈ dirs then dirs else p :: dirs

namespace VXDbus

/-- Rust `ConfigDirectoryResolutionMethods` of the application layer with the
`dbus` feature (src/src/voxels/voxels_xdg/config.rs lines 32-37). -/
inductive ConfigDirectoryResolutionMethods where
  | FromXDG
  | FromDBus
deriving DecidableEq, Repr

/-- Rust `ConfigDirectoryPriority` (src/src/voxels/voxels_xdg/config.rs lines
39-81), as the value list in key order. -/
structure ConfigDirectoryPriority where
  order : List ConfigDirectoryResolutionMethods
deriving DecidableEq, Repr

/-- Rust `ConfigDirectoryPriority::default`, dbus build (lines 44-52): DBus then
XDG. -/
def ConfigDirectoryPriority.default : ConfigDirectoryPriority :=
  ⟨[ConfigDirectoryResolutionMethods.FromDBus,
    ConfigDirectoryResolutionMethods.FromXDG]⟩

/-- Rust `ConfigDirectoryPriority::set_all`, dbus build (lines 65-70): exactly two
entries. -/
def ConfigDirectoryPriority.set_all (m0 m1 : ConfigDirectoryResolutionMethods) :
    ConfigDirectoryPriority :=
  ⟨[m0, m1]⟩

/-- Rust `ConfigDirectory` of the application layer, dbus build
(src/src/voxels/voxels_xdg/config.rs lines 106-110).  The injected base
resolver `BaseT: base::ConfigDirectoryResolver` takes `&self` in every
method, so it is represented by its fixed `resolve()` outcome; the remote
DBus service's reply to the single `method_call` is likewise represented by
its outcome (`Except.error` standing for a failed call — e.g. one that timed
out after the fixed 1-second `Proxy` timeout, or hit a lost connection). -/
structure ConfigDirectory where
  path : Option RPath
  priority : ConfigDirectoryPriority
  baseResolve : Except BaseDirectoryError (RPath × Xdg.ConfigDirectoryResolutionMethods)
  dbusCall : Except Unit RPath
deriving DecidableEq

/-- Rust `ConfigDirectory::new` (lines 113-121) with the given collaborators. -/
def ConfigDirectory.new
    (base : Except BaseDirectoryError (RPath × Xdg.ConfigDirectoryResolutionMethods))
    (dbus : Except Unit RPath) : ConfigDirectory :=
  ⟨none, ConfigDirectoryPriority.default, base, dbus⟩

/-- Rust `ConfigDirectory::is_resolved` (lines 230-232). -/
def ConfigDirectory.is_resolved (self : ConfigDirectory) : Bool :=
  self.path.isSome

/-- Rust `ConfigDirectory::resolve_using_dbus` (src/src/voxels/voxels_xdg/
config.rs lines 125-166): returns the cached path if resolved; otherwise
issues the request through a `Proxy` built with a fixed 1-second timeout and
calls `.unwrap()` on the reply, so a failed call (timeout, lost connection)
aborts; a successful reply is cached unverified.  The spawned
connection-monitor task and the `on_connection_loss` callback it may fire
are concurrent side effects outside this synchronous model. -/
def ConfigDirectory.resolve_using_dbus (self : ConfigDirectory) :
    ROut VoxelsDirectoryError RPath × ConfigDirectory :=
  match self.path with
  | some p => (ROut.ok p, self)
  | none =>
    match self.dbusCall with
    | Except.error _ => (ROut.panicked, self)
    | Except.ok config_path =>
      (ROut.ok config_path, { self with path := some config_path })

/-- Rust `ConfigDirectory::resolve_using_xdg` (lines 168-183): returns the cached
path if resolved; otherwise delegates to the base resolver (counted by the
returned `Nat`), joins `"voxels"`, caches and returns. -/
def ConfigDirectory.resolve_using_xdg (self : ConfigDirectory) :
    ROut VoxelsDirectoryError RPath × ConfigDirectory × Nat :=
  match self.path with
  | some p => (ROut.ok p, self, 0)
  | none =>
    match self.baseResolve with
    | Except.error e => (ROut.err (VoxelsDirectoryError.fromBase e), self, 1)
    | Except.ok (base, _how) =>
      let config_path := base.join ⟨false, ["voxels"]⟩
      (ROut.ok config_path, { self with path := some config_path }, 1)

/-- Rust `ConfigDirectory::resolve`, dbus build (src/src/voxels/voxels_xdg/
config.rs lines 185-198): the loop body is `return match ...`, so the result
of the first priority entry's strategy is returned as the result of
`resolve()` whether or not it succeeded; an empty order yields
`NoCandidate`.  The returned `Nat` counts base-resolver invocations. -/
def ConfigDirectory.resolve (self : ConfigDirectory) :
    ROut VoxelsDirectoryError RPath × ConfigDirectory × Nat :=
  match self.priority.order with
  | [] => (ROut.err VoxelsDirectoryError.NoCandidate, self, 0)
  | m :: _ =>
    match m with
    | ConfigDirectoryResolutionMethods.FromDBus =>
      let r := self.resolve_using_dbus
      (r.1, r.2, 0)
    | ConfigDirectoryResolutionMethods.FromXDG => self.resolve_using_xdg

/-- Rust `ConfigDirectory::resolve_and_create` (lines 212-228): `resolve()?`, then
`std::fs::create_dir_all` on the resolved path. -/
def ConfigDirectory.resolve_and_create (self : ConfigDirectory) (dirs : List RPath) :
    ROut VoxelsDirectoryError RPath × ConfigDirectory × List RPath :=
  match self.resolve with
  | (ROut.ok p, s, _) => (ROut.ok p, s, createDirAll dirs p)
  | (ROut.err e, s, _) => (ROut.err e, s, dirs)
  | (ROut.panicked, s, _) => (ROut.panicked, s, dirs)

end VXDbus

namespace VXNoDbus

/-- Rust `ConfigDirectoryResolutionMethods` of the application layer without
the `dbus` feature (src/src/voxels/voxels_xdg/config.rs lines 32-37): only
`FromXDG` is compiled in. -/
inductive ConfigDirectoryResolutionMethods where
  | FromXDG
deriving DecidableEq, Repr

/-- Rust `ConfigDirectory` of the application layer, non-dbus build
(src/src/voxels/voxels_xdg/config.rs lines 106-110); the injected base
resolver is represented by its fixed `&self` `resolve()` outcome. -/
structure ConfigDirectory where
  path : Option RPath
  priority : List ConfigDirectoryResolutionMethods
  baseResolve : Except BaseDirectoryError (RPath × Xdg.ConfigDirectoryResolutionMethods)
deriving DecidableEq

/-- Rust `ConfigDirectory::is_resolved` (lines 230-232). -/
def ConfigDirectory.is_resolved (self : ConfigDirectory) : Bool :=
  self.path.isSome

/-- Rust `ConfigDirectory::resolve_using_xdg` (lines 168-183), non-dbus build:
identical body to the dbus build. -/
def ConfigDirectory.resolve_using_xdg (self : ConfigDirectory) :
    Except VoxelsDirectoryError RPath × ConfigDirectory × Nat :=
  match self.path with
  | some p => (Except.ok p, self, 0)
  | none =>
    match self.baseResolve with
    | Except.error e => (Except.error (VoxelsDirectoryError.fromBase e), self, 1)
    | Except.ok (base, _how) =>
      let config_path := base.join ⟨false, ["voxels"]⟩
      (Except.ok config_path, { self with path := some config_path }, 1)

/-- Rust `ConfigDirectory::resolve`, non-dbus build (src/src/voxels/voxels_xdg/
config.rs lines 200-210): `return match` on the first priority entry (the
only compiled-in method is `FromXDG`); an empty order yields
`NoCandidate`. -/
def ConfigDirectory.resolve (self : ConfigDirectory) :
    Except VoxelsDirectoryError RPath × ConfigDirectory × Nat :=
  match self.priority with
  | [] => (Except.error VoxelsDirectoryError.NoCandidate, self, 0)
  | ConfigDirectoryResolutionMethods.FromXDG :: _ => self.resolve_using_xdg

/-- Rust `ConfigDirectory::resolve_and_create`, non-dbus build (lines 221-228). -/
def ConfigDirectory.resolve_and_create (self : ConfigDirectory) (dirs : List RPath) :
    Except VoxelsDirectoryError RPath × ConfigDirectory × List RPath :=
  match self.resolve with
  | (Except.ok p, s, _) => (Except.ok p, s, createDirAll dirs p)
  | (Except.error e, s, _) => (Except.error e, s, dirs)

end VXNoDbus

namespace Apps

/-- Rust `ConfigDirectory` of the application-feature layer
(src/src/voxels/config.rs lines 30-33); the injected
`base::ConfigDirectoryResolver` (the historical layer, whose `resolve()`
takes `&self` and may panic) is represented by its fixed outcome. -/
structure ConfigDirectory where
  config_path : Option RPath
  baseResolve : ROut BaseDirectoryError (RPath × BaseCfg.ConfigDirectoryResolutionMethods)
deriving DecidableEq

/-- Rust `ConfigDirectory::new` (src/src/voxels/config.rs lines 36-41). -/
def ConfigDirectory.new
    (base : ROut BaseDirectoryError (RPath × BaseCfg.ConfigDirectoryResolutionMethods)) :
    ConfigDirectory :=
  ⟨none, base⟩

/-- Rust `ConfigDirectory::is_resolved` (src/src/voxels/config.rs lines 56-58). -/
def ConfigDirectory.is_resolved (self : ConfigDirectory) : Bool :=
  self.config_path.isSome

/-- Rust `ConfigDirectory::resolve` (src/src/voxels/config.rs lines 45-54): the
receiver is `&self`, so the call returns its result without any state
change — `config_path` is never written by any operation; the returned `Nat`
counts base-resolver invocations made by this call. -/
def ConfigDirectory.resolve (self : ConfigDirectory) :
    ROut VoxelsDirectoryError RPath × Nat :=
  match self.config_path with
  | some p => (ROut.ok p, 0)
  | none =>
    match self.baseResolve with
    | ROut.ok (base, _how) => (ROut.ok (base.join ⟨false, ["voxels"]⟩), 1)
    | ROut.err e => (ROut.err (VoxelsDirectoryError.fromBase e), 1)
    | ROut.panicked => (ROut.panicked, 1)

/-- Rust `DataDirectory` of the application-feature layer
(src/src/voxels/data.rs lines 37-40); the injected voxels-xdg data resolver
is represented by its resolve outcome. -/
structure DataDirectory where
  data_path : Option RPath
  baseResolve : Except VoxelsDirectoryError RPath
deriving DecidableEq

/-- Rust `DataDirectory::is_resolved` (src/src/voxels/data.rs lines 71-73). -/
def DataDirectory.is_resolved (self : DataDirectory) : Bool :=
  self.data_path.isSome

/-- Rust `DataDirectory::resolve` (src/src/voxels/data.rs lines 52-61): `&self`
receiver, so no state change; joins the application identity segment onto
the base result; the `Nat` counts base-resolver invocations. -/
def DataDirectory.resolve (self : DataDirectory) (rdn : String) :
    Except VoxelsDirectoryError RPath × Nat :=
  match self.data_path with
  | some p => (Except.ok p, 0)
  | none =>
    match self.baseResolve with
    | Except.error e => (Except.error e, 1)
    | Except.ok base => (Except.ok (base.join ⟨false, [rdn]⟩), 1)

/-- Rust `DataDirectory::resolve_and_create` (src/src/voxels/data.rs lines
63-69): `resolve()?`, then `std::fs::create_dir_all`. -/
def DataDirectory.resolve_and_create (self : DataDirectory) (rdn : String)
    (dirs : List RPath) : Except VoxelsDirectoryError RPath × List RPath :=
  match self.resolve rdn with
  | (Except.ok p, _) => (Except.ok p, createDirAll dirs p)
  | (Except.error e, _) => (Except.error e, dirs)

end Apps

/-- Rust `ApplicationErrors` (src/src/application.rs lines 5-8). -/
inductive ApplicationErrors where
  | InvalidName
deriving DecidableEq, Repr

/-- Rust `String::len`: the UTF-8 byte length of the character sequence. -/
def rustUtf8Len (name : List Char) : Nat :=
  (name.map Char.utf8Size).sum

/-- Rust `char::is_numeric` on the ASCII fragment (the scope of this model's
character classification): an ASCII digit.  (On non-ASCII characters Rust
consults full Unicode tables, which are outside this embedding.) -/
def char_is_numeric (c : Char) : Bool :=
  c.isDigit

/-- Rust `char::is_alphanumeric` on the ASCII fragment: an ASCII letter or
digit. -/
def char_is_alphanumeric (c : Char) : Bool :=
  c.isAlpha || c.isDigit

/-- The per-segment loop of `ApplicationRDN::new` (src/src/application.rs
lines 31-39): reject an empty segment, or one whose first character is
numeric; `true` means the loop falls through without returning an error. -/
def segmentsOk : List (List Char) → Bool
  | [] => true
  | [] :: _ => false
  | (c :: _) :: rest => if char_is_numeric c then false else segmentsOk rest

/-- Rust `ApplicationRDN` (src/src/application.rs lines 16-19). -/
structure ApplicationRDN where
  name : List Char
deriving DecidableEq, Repr

/-- Rust `ApplicationRDN::new` (src/src/application.rs lines 22-48): reject names
longer than 255 bytes or empty; names without a `'.'`; names with an empty
or digit-initial `'.'`-separated segment; names containing a character that
is neither alphanumeric nor `'_'` nor `'.'`. -/
def ApplicationRDN.new (name : List Char) : Except ApplicationErrors ApplicationRDN :=
  if rustUtf8Len name > 255 || name.isEmpty then Except.error ApplicationErrors.InvalidName
  else if name.count '.' == 0 then Except.error ApplicationErrors.InvalidName
  else if !segmentsOk (name.splitOn '.') then Except.error ApplicationErrors.InvalidName
  else if (name.filter (fun c => !char_is_alphanumeric c && c != '_' && c != '.')).length > 0 then
    Except.error ApplicationErrors.InvalidName
  else Except.ok ⟨name⟩

/-- The acceptance condition exactly as the claim words it: a non-empty name
of at most 255 characters, with at least one separator, every
separator-delimited segment non-empty and not starting with a digit, and all
characters alphanumeric, underscore, or the separator. -/
def rdnClaimAccepts (name : List Char) : Bool :=
  !name.isEmpty && name.length ≤ 255 && name.contains '.' &&
    (name.splitOn '.').all
      (fun seg => !seg.isEmpty && !char_is_numeric (seg.headD ' ')) &&
    name.all (fun c => char_is_alphanumeric c || c == '_' || c == '.')

/-- A sample environment: the config override variable and the standard
config variable are both set (to `/v` and `/x` respectively), `HOME` is
unset. -/
def envSample : EnvMap := fun n =>
  if n = "VOXELS_CONFIG_HOME" then some ⟨true, ["v"]⟩
  else if n = "XDG_CONFIG_HOME" then some ⟨true, ["x"]⟩
  else none

/-- A sample verifier accepting only `/x` (so the override candidate fails
verification and the standard candidate passes). -/
def verSample : RPath → Bool := fun p => p == (⟨true, ["x"]⟩ : RPath)

/-- An environment with every variable unset. -/
def envUnset : EnvMap := fun _ => none

/-- A verifier accepting every path. -/
def verTrue : RPath → Bool := fun _ => true

/-- Generic shape of the base-layer fall-through resolution loop: walk a
method list, return the first success paired with its method, `noCand` once
the list is exhausted.  `Xdg.ConfigDirectory.resolveGo` and
`Xdg.DataDirectory.resolveGo` are instances (see the lemmas below), which
lets the first-match characterisation be proved once. -/
def firstOkGo {μ β : Type} (f : μ → Except BaseDirectoryError β) :
    List μ → Except BaseDirectoryError (β × μ)
  | [] => Except.error BaseDirectoryError.NoCandidate
  | m :: rest =>
    match f m with
    | Except.ok p => Except.ok (p, m)
    | Except.error _ => firstOkGo f rest

theorem xdgConfig_resolveGo_eq_firstOkGo (self : Xdg.ConfigDirectory) :
    ∀ l, self.resolveGo l = firstOkGo self.useMethod l := by
  intro l
  induction l with
  | nil => rfl
  | cons m rest ih =>
    simp only [Xdg.ConfigDirectory.resolveGo, firstOkGo]
    cases self.useMethod m with
    | ok p => rfl
    | error e => simpa using ih

theorem xdgData_resolveGo_eq_firstOkGo (self : Xdg.DataDirectory) :
    ∀ l, self.resolveGo l = firstOkGo self.useMethod l := by
  intro l
  induction l with
  | nil => rfl
  | cons m rest ih =>
    simp only [Xdg.DataDirectory.resolveGo, firstOkGo]
    cases self.useMethod m with
    | ok p => rfl
    | error e => simpa using ih

theorem firstOkGo_eq_ok_iff {μ β : Type} (f : μ → Except BaseDirectoryError β)
    (l : List μ) (p : β) (m : μ) :
    firstOkGo f l = Except.ok (p, m) ↔
      ∃ pre post, l = pre ++ m :: post ∧ f m = Except.ok p ∧
        ∀ m' ∈ pre, ∃ e, f m' = Except.error e := by
  induction l with
  | nil =>
    constructor
    · intro h
      simp [firstOkGo] at h
    · rintro ⟨pre, post, h, -, -⟩
      exact absurd h (by simp)
  | cons m0 rest ih =>
    simp only [firstOkGo]
    cases hf : f m0 with
    | ok p0 =>
      constructor
      · intro h
        obtain ⟨hp, hm⟩ := Prod.mk.injEq .. ▸ Except.ok.inj h
        exact ⟨[], rest, by simp [hm], by rw [← hm, hf, hp], by simp⟩
      · rintro ⟨pre, post, heq, hfm, hpre⟩
        cases pre with
        | nil =>
          obtain ⟨hm, hpost⟩ := List.cons.inj heq
          rw [hm] at hf
          rw [hfm] at hf
          obtain rfl := Except.ok.inj hf
          rw [hm]
        | cons m1 pre' =>
          obtain ⟨hm1, -⟩ := List.cons.inj heq
          obtain ⟨e, he⟩ := hpre m1 (List.mem_cons_self m1 pre')
          rw [← hm1, hf] at he
          exact absurd he (by simp)
    | error e0 =>
      rw [ih]
      constructor
      · rintro ⟨pre, post, heq, hfm, hpre⟩
        refine ⟨m0 :: pre, post, by rw [heq, List.cons_append], hfm, ?_⟩
        intro m' hm'
        rcases List.mem_cons.mp hm' with h | h
        · exact ⟨e0, by rw [h, hf]⟩
        · exact hpre m' h
      · rintro ⟨pre, post, heq, hfm, hpre⟩
        cases pre with
        | nil =>
          obtain ⟨hm, -⟩ := List.cons.inj heq
          rw [hm, hfm] at hf
          exact absurd hf (by simp)
        | cons m1 pre' =>
          obtain ⟨-, hrest⟩ := List.cons.inj heq
          exact ⟨pre', post, hrest, hfm,
            fun m' hm' => hpre m' (List.mem_cons_of_mem m1 hm')⟩

theorem firstOkGo_all_fail {μ β : Type} (f : μ → Except BaseDirectoryError β)
    (l : List μ) (hall : ∀ m ∈ l, ∃ e, f m = Except.error e) :
    firstOkGo f l = Except.error BaseDirectoryError.NoCandidate := by
  induction l with
  | nil => rfl
  | cons m0 rest ih =>
    obtain ⟨e, he⟩ := hall m0 (List.mem_cons_self m0 rest)
    simp only [firstOkGo, he]
    exact ih fun m hm => hall m (List.mem_cons_of_mem m0 hm)

theorem xdg_applyOp_fst (s : Xdg.ConfigDirectory) (op : Xdg.ConfigOp) :
    (s.applyOp op).1 = s := by
  cases op <;> rfl

theorem xdg_applyOps_id (s : Xdg.ConfigDirectory) (ops : List Xdg.ConfigOp) :
    s.applyOps ops = s := by
  induction ops generalizing s with
  | nil => rfl
  | cons op rest ih =>
    show Xdg.ConfigDirectory.applyOps _ _ = _
    unfold Xdg.ConfigDirectory.applyOps
    rw [List.foldl_cons, xdg_applyOp_fst]
    exact ih s

theorem baseCfg_applyOp_fst (s : BaseCfg.ConfigDirectory) (op : Xdg.ConfigOp) :
    (s.applyOp op).1 = s := by
  cases op <;> rfl

theorem baseCfg_applyOps_id (s : BaseCfg.ConfigDirectory) (ops : List Xdg.ConfigOp) :
    s.applyOps ops = s := by
  induction ops generalizing s with
  | nil => rfl
  | cons op rest ih =>
    show BaseCfg.ConfigDirectory.applyOps _ _ = _
    unfold BaseCfg.ConfigDirectory.applyOps
    rw [List.foldl_cons, baseCfg_applyOp_fst]
    exact ih s

/-- C1 (code bug): on the current (xdg) layer, `resolve()` for the config
and data categories returns exactly the path and method of the first
strategy in the priority order that succeeds, with every earlier strategy
having failed and failures not affecting which later strategy is tried;
but on the historical layer (src/src/base/config.rs) the loop body is
`return match ...`, so at the sample input — override variable set to a
path failing verification, standard variable set to a verified path —
`resolve()` returns `NoCandidate` instead of the standard-convention
result that the claim (and the xdg layer) produce. -/
theorem c1_resolve_first_match :
    (∀ (self : Xdg.ConfigDirectory) (p : RPath)
        (m : Xdg.ConfigDirectoryResolutionMethods),
      self.resolve = Except.ok (p, m) ↔
        ∃ pre post, self.priority.order = pre ++ m :: post ∧
          self.useMethod m = Except.ok p ∧
          ∀ m' ∈ pre, ∃ e, self.useMethod m' = Except.error e) ∧
    (∀ (self : Xdg.DataDirectory) (p : RPath)
        (m : Xdg.DataDirectoryResolutionMethods),
      self.resolve = Except.ok (p, m) ↔
        ∃ pre post, self.priority.order = pre ++ m :: post ∧
          self.useMethod m = Except.ok p ∧
          ∀ m' ∈ pre, ∃ e, self.useMethod m' = Except.error e) ∧
    (Xdg.ConfigDirectory.new envSample verSample).resolve =
      Except.ok (⟨true, ["x"]⟩, Xdg.ConfigDirectoryResolutionMethods.FromXDG) ∧
    (BaseCfg.ConfigDirectory.new envSample verSample).resolve =
      ROut.err BaseDirectoryError.NoCandidate := by
  refine ⟨fun self p m => ?_, fun self p m => ?_, rfl, rfl⟩
  · rw [Xdg.ConfigDirectory.resolve, xdgConfig_resolveGo_eq_firstOkGo]
    exact firstOkGo_eq_ok_iff _ _ _ _
  · rw [Xdg.DataDirectory.resolve, xdgData_resolveGo_eq_firstOkGo]
    exact firstOkGo_eq_ok_iff _ _ _ _

/-- C2: on the xdg layer, if every strategy in the priority list fails,
`resolve()` returns `NoCandidate`; and on the application layer (non-dbus
build), a failed resolution writes nothing to the cached path, so
`is_resolved()` still returns false afterwards. -/
theorem c2_all_fail_yields_no_candidate :
    (∀ (self : Xdg.ConfigDirectory),
      (∀ m ∈ self.priority.order, ∃ e, self.useMethod m = Except.error e) →
        self.resolve = Except.error BaseDirectoryError.NoCandidate) ∧
    (∀ (s : VXNoDbus.ConfigDirectory) (e : BaseDirectoryError),
      s.path = none → s.baseResolve = Except.error e →
        (s.resolve).1 = Except.error VoxelsDirectoryError.NoCandidate ∧
        (s.resolve).2.1.is_resolved = false) := by
  constructor
  · intro self hall
    rw [Xdg.ConfigDirectory.resolve, xdgConfig_resolveGo_eq_firstOkGo]
    exact firstOkGo_all_fail _ _ hall
  · rintro ⟨pathF, prio, baseF⟩ e hp hb
    dsimp only at hp hb
    subst hp
    subst hb
    cases e
    cases prio with
    | nil => exact ⟨rfl, rfl⟩
    | cons m rest => cases m ; exact ⟨rfl, rfl⟩

/-- Closed instantiation of `c2_all_fail_yields_no_candidate` at an
environment with every variable unset (all three strategies fail) and at an
application resolver whose base failed. -/
theorem c2_all_fail_yields_no_candidate_witness :
    (Xdg.ConfigDirectory.new envUnset verTrue).resolve =
      Except.error BaseDirectoryError.NoCandidate ∧
    ((VXNoDbus.ConfigDirectory.mk none
        [VXNoDbus.ConfigDirectoryResolutionMethods.FromXDG]
        (Except.error BaseDirectoryError.NoCandidate)).resolve).1 =
      Except.error VoxelsDirectoryError.NoCandidate ∧
    ((VXNoDbus.ConfigDirectory.mk none
        [VXNoDbus.ConfigDirectoryResolutionMethods.FromXDG]
        (Except.error BaseDirectoryError.NoCandidate)).resolve).2.1.is_resolved =
      false :=
  ⟨c2_all_fail_yields_no_candidate.1 (Xdg.ConfigDirectory.new envUnset verTrue)
      (by
        intro m hm
        exact ⟨BaseDirectoryError.NoCandidate, by cases m <;> rfl⟩),
    (c2_all_fail_yields_no_candidate.2
        (VXNoDbus.ConfigDirectory.mk none
          [VXNoDbus.ConfigDirectoryResolutionMethods.FromXDG]
          (Except.error BaseDirectoryError.NoCandidate))
        BaseDirectoryError.NoCandidate rfl rfl).1,
    (c2_all_fail_yields_no_candidate.2
        (VXNoDbus.ConfigDirectory.mk none
          [VXNoDbus.ConfigDirectoryResolutionMethods.FromXDG]
          (Except.error BaseDirectoryError.NoCandidate))
        BaseDirectoryError.NoCandidate rfl rfl).2⟩

/-- C3 (code bug): on the xdg layer every `using_*` strategy operation
returns the recoverable `NoCandidate` value when its environment variable
is unset, and likewise when the candidate fails verification; but on the
historical layer (src/src/base/config.rs) the env read is followed by
`.unwrap()`, so `using_voxels` with the variable unset aborts instead of
returning a value. -/
theorem c3_strategy_failure_is_recoverable :
    (∀ (self : Xdg.ConfigDirectory),
      (self.env "VOXELS_CONFIG_HOME" = none →
        self.using_voxels = Except.error BaseDirectoryError.NoCandidate) ∧
      (∀ p, self.env "VOXELS_CONFIG_HOME" = some p → self.verifier p = false →
        self.using_voxels = Except.error BaseDirectoryError.NoCandidate) ∧
      (self.env "XDG_CONFIG_HOME" = none →
        self.using_xdg = Except.error BaseDirectoryError.NoCandidate) ∧
      (∀ p, self.env "XDG_CONFIG_HOME" = some p → self.verifier p = false →
        self.using_xdg = Except.error BaseDirectoryError.NoCandidate) ∧
      (self.env "HOME" = none →
        self.using_fhs = Except.error BaseDirectoryError.NoCandidate) ∧
      (∀ p, self.env "HOME" = some p →
        self.verifier (p.join ⟨false, [".config"]⟩) = false →
        self.using_fhs = Except.error BaseDirectoryError.NoCandidate)) ∧
    (BaseCfg.ConfigDirectory.new envUnset verTrue).using_voxels = ROut.panicked := by
  refine ⟨fun self => ⟨?_, ?_, ?_, ?_, ?_, ?_⟩, rfl⟩
  · intro h
    simp [Xdg.ConfigDirectory.using_voxels, getPathFromEnvironment, h]
  · intro p hp hv
    simp [Xdg.ConfigDirectory.using_voxels, getPathFromEnvironment, hp, hv]
  · intro h
    simp [Xdg.ConfigDirectory.using_xdg, getPathFromEnvironment, h]
  · intro p hp hv
    simp [Xdg.ConfigDirectory.using_xdg, getPathFromEnvironment, hp, hv]
  · intro h
    simp [Xdg.ConfigDirectory.using_fhs, getPathFromEnvironment, h]
  · intro p hp hv
    simp [Xdg.ConfigDirectory.using_fhs, getPathFromEnvironment, hp, hv]

/-- Closed instantiation of `c3_strategy_failure_is_recoverable` at the
all-unset environment: the xdg-layer strategy returns the `NoCandidate`
value while the historical-layer one panics. -/
theorem c3_strategy_failure_is_recoverable_witness :
    (Xdg.ConfigDirectory.new envUnset verTrue).using_voxels =
      Except.error BaseDirectoryError.NoCandidate ∧
    (BaseCfg.ConfigDirectory.new envUnset verTrue).using_voxels = ROut.panicked :=
  ⟨(c3_strategy_failure_is_recoverable.1
      (Xdg.ConfigDirectory.new envUnset verTrue)).1 rfl,
    c3_strategy_failure_is_recoverable.2⟩

theorem length_le_rustUtf8Len (name : List Char) :
    name.length ≤ rustUtf8Len name := by
  induction name with
  | nil => exact Nat.le_refl 0
  | cons c cs ih =>
    have hc : 1 ≤ c.utf8Size := Char.utf8Size_pos c
    calc (c :: cs).length = cs.length + 1 := rfl
      _ ≤ rustUtf8Len cs + c.utf8Size := Nat.add_le_add ih hc
      _ = rustUtf8Len (c :: cs) := by
          simp [rustUtf8Len, Nat.add_comm]

theorem utf8Size_eq_one_of_ascii (c : Char) (h : c.toNat ≤ 127) :
    c.utf8Size = 1 := by
  unfold Char.utf8Size
  rw [if_pos]
  rw [UInt32.le_def, BitVec.le_def]
  exact h

theorem rustUtf8Len_of_ascii (name : List Char) (h : ∀ c ∈ name, c.toNat ≤ 127) :
    rustUtf8Len name = name.length := by
  induction name with
  | nil => rfl
  | cons c cs ih =>
    have hc := utf8Size_eq_one_of_ascii c (h c (List.mem_cons_self c cs))
    have hcs := ih fun x hx => h x (List.mem_cons_of_mem c hx)
    simp [rustUtf8Len] at hcs ⊢
    rw [hc, hcs]
    exact Nat.add_comm 1 cs.length

theorem segmentsOk_eq_all (l : List (List Char)) :
    segmentsOk l =
      l.all fun seg => !seg.isEmpty && !char_is_numeric (seg.headD ' ') := by
  induction l with
  | nil => rfl
  | cons seg rest ih =>
    cases seg with
    | nil => simp [segmentsOk]
    | cons c t =>
      simp only [segmentsOk, List.all_cons, List.isEmpty_cons, Bool.not_false,
        List.headD_cons, Bool.true_and]
      cases hc : char_is_numeric c with
      | true => simp
      | false => simpa using ih

theorem charClassGood (c : Char)
    (h : (!char_is_alphanumeric c && c != '_' && c != '.') = false) :
    (char_is_alphanumeric c || c == '_' || c == '.') = true := by
  cases ha : char_is_alphanumeric c <;> cases hu : c == '_' <;>
    cases hd : c == '.' <;>
      simp only [bne, ha, hu, hd, Bool.not_true, Bool.not_false, Bool.and_true,
        Bool.and_false, Bool.true_and, Bool.false_and, Bool.or_true,
        Bool.or_false, Bool.true_or, Bool.false_or] at h ⊢
  exact absurd h (by simp)

theorem charClassBad (c : Char)
    (h : (char_is_alphanumeric c || c == '_' || c == '.') = true) :
    (!char_is_alphanumeric c && c != '_' && c != '.') = false := by
  cases ha : char_is_alphanumeric c <;> cases hu : c == '_' <;>
    cases hd : c == '.' <;>
      simp only [bne, ha, hu, hd, Bool.not_true, Bool.not_false, Bool.and_true,
        Bool.and_false, Bool.true_and, Bool.false_and, Bool.or_true,
        Bool.or_false, Bool.true_or, Bool.false_or] at h ⊢
  exact absurd h (by simp)

theorem vxdbus_resolve_ok_caches (s s1 : VXDbus.ConfigDirectory) (p : RPath)
    (n : Nat) (h : s.resolve = (ROut.ok p, s1, n)) :
    s1 = { s with path := some p } := by
  rcases s with ⟨pathF, ⟨order⟩, baseF, dbusF⟩
  cases order with
  | nil => exact absurd h (by simp [VXDbus.ConfigDirectory.resolve])
  | cons m rest =>
    cases m with
    | FromDBus =>
      cases pathF with
      | some q =>
        simp [VXDbus.ConfigDirectory.resolve,
          VXDbus.ConfigDirectory.resolve_using_dbus] at h
        obtain ⟨rfl, rfl, -⟩ := h
        rfl
      | none =>
        cases hd : dbusF with
        | error u =>
          exact absurd h (by
            simp [VXDbus.ConfigDirectory.resolve,
              VXDbus.ConfigDirectory.resolve_using_dbus, hd])
        | ok d =>
          simp [VXDbus.ConfigDirectory.resolve,
            VXDbus.ConfigDirectory.resolve_using_dbus, hd] at h
          obtain ⟨rfl, rfl, -⟩ := h
          rfl
    | FromXDG =>
      cases pathF with
      | some q =>
        simp [VXDbus.ConfigDirectory.resolve,
          VXDbus.ConfigDirectory.resolve_using_xdg] at h
        obtain ⟨rfl, rfl, -⟩ := h
        rfl
      | none =>
        cases hb : baseF with
        | error e =>
          exact absurd h (by
            simp [VXDbus.ConfigDirectory.resolve,
              VXDbus.ConfigDirectory.resolve_using_xdg, hb])
        | ok bh =>
          simp [VXDbus.ConfigDirectory.resolve,
            VXDbus.ConfigDirectory.resolve_using_xdg, hb] at h
          obtain ⟨rfl, rfl, -⟩ := h
          rfl

theorem vxdbus_resolve_ok_order_ne_nil (s s1 : VXDbus.ConfigDirectory)
    (p : RPath) (n : Nat) (h : s.resolve = (ROut.ok p, s1, n)) :
    s.priority.order ≠ [] := by
  intro hnil
  rw [VXDbus.ConfigDirectory.resolve, hnil] at h
  exact absurd h (by simp)

theorem vxdbus_resolve_cached (s : VXDbus.ConfigDirectory) (p : RPath)
    (hp : s.path = some p) (hord : s.priority.order ≠ []) :
    s.resolve = (ROut.ok p, s, 0) := by
  rcases s with ⟨pathF, ⟨order⟩, baseF, dbusF⟩
  dsimp only at hp
  subst hp
  cases order with
  | nil => exact absurd rfl hord
  | cons m rest =>
    cases m with
    | FromDBus => rfl
    | FromXDG => rfl

/-- C8: `resolve_and_create()` is idempotent, on the dbus-build application
config resolver and on the application-feature data resolver alike: if a
first call succeeds with path `p` and directory set `dirs1`, then `p` is
among the directories afterwards, and a second call on the resulting
instance succeeds with the same path, leaves the directory set unchanged
(the already-existing directory is observed, not re-created, and is not an
error). -/
theorem mem_createDirAll (dirs : List RPath) (p : RPath) :
    p ∈ createDirAll dirs p := by
  unfold createDirAll
  split
  · assumption
  · exact List.mem_cons_self p dirs

theorem createDirAll_of_mem (dirs : List RPath) (p : RPath) (h : p ∈ dirs) :
    createDirAll dirs p = dirs := by
  unfold createDirAll
  rw [if_pos h]

/-- C8: `resolve_and_create()` is idempotent, on the dbus-build application
config resolver and on the application-feature data resolver alike: if a
first call succeeds with path `p` and directory set `dirs1`, then `p` is
among the directories afterwards, and a second call on the resulting
instance succeeds with the same path and leaves the directory set unchanged
(the already-existing directory is observed, not re-created, and is not an
error). -/
theorem c8_resolve_and_create_idempotent :
    (∀ (s s1 : VXDbus.ConfigDirectory) (dirs dirs1 : List RPath) (p : RPath),
      s.resolve_and_create dirs = (ROut.ok p, s1, dirs1) →
        p ∈ dirs1 ∧ s1.resolve_and_create dirs1 = (ROut.ok p, s1, dirs1)) ∧
    (∀ (s : Apps.DataDirectory) (rdn : String) (dirs dirs1 : List RPath)
        (p : RPath),
      s.resolve_and_create rdn dirs = (Except.ok p, dirs1) →
        p ∈ dirs1 ∧ s.resolve_and_create rdn dirs1 = (Except.ok p, dirs1)) := by
  constructor
  · intro s s1 dirs dirs1 p h
    rcases hr : s.resolve with ⟨r, s', n'⟩
    cases r with
    | ok q =>
      rw [VXDbus.ConfigDirectory.resolve_and_create, hr] at h
      rw [Prod.mk.injEq, Prod.mk.injEq] at h
      obtain ⟨hq, rfl, rfl⟩ := h
      obtain rfl := ROut.ok.inj hq
      have hord := vxdbus_resolve_ok_order_ne_nil s s' q n' hr
      have hcache := vxdbus_resolve_ok_caches s s' q n' hr
      have hpath : s'.path = some q := by rw [hcache]
      have hord' : s'.priority.order ≠ [] := by rw [hcache]; exact hord
      have hsecond := vxdbus_resolve_cached s' q hpath hord'
      refine ⟨mem_createDirAll dirs q, ?_⟩
      rw [VXDbus.ConfigDirectory.resolve_and_create, hsecond]
      dsimp only
      rw [createDirAll_of_mem _ _ (mem_createDirAll dirs q)]
    | err e =>
      rw [VXDbus.ConfigDirectory.resolve_and_create, hr] at h
      exact absurd h (by simp)
    | panicked =>
      rw [VXDbus.ConfigDirectory.resolve_and_create, hr] at h
      exact absurd h (by simp)
  · intro s rdn dirs dirs1 p h
    rcases hr : s.resolve rdn with ⟨r, k⟩
    cases r with
    | ok q =>
      rw [Apps.DataDirectory.resolve_and_create, hr] at h
      rw [Prod.mk.injEq] at h
      obtain ⟨hq, rfl⟩ := h
      obtain rfl := Except.ok.inj hq
      refine ⟨mem_createDirAll dirs q, ?_⟩
      rw [Apps.DataDirectory.resolve_and_create, hr]
      dsimp only
      rw [createDirAll_of_mem _ _ (mem_createDirAll dirs q)]
    | error e =>
      rw [Apps.DataDirectory.resolve_and_create, hr] at h
      exact absurd h (by simp)

/-- Closed instantiation of `c8_resolve_and_create_idempotent`: a dbus-build
application config resolver whose remote call answers `/remote`, starting
from an empty filesystem, and an application-feature data resolver over a
resolved base. -/
theorem c8_resolve_and_create_idempotent_witness :
    ((⟨true, ["remote"]⟩ : RPath) ∈ [(⟨true, ["remote"]⟩ : RPath)] ∧
      (VXDbus.ConfigDirectory.mk (some ⟨true, ["remote"]⟩)
          VXDbus.ConfigDirectoryPriority.default
          (Except.error BaseDirectoryError.NoCandidate)
          (Except.ok ⟨true, ["remote"]⟩)).resolve_and_create
          [⟨true, ["remote"]⟩] =
        (ROut.ok ⟨true, ["remote"]⟩,
          VXDbus.ConfigDirectory.mk (some ⟨true, ["remote"]⟩)
            VXDbus.ConfigDirectoryPriority.default
            (Except.error BaseDirectoryError.NoCandidate)
            (Except.ok ⟨true, ["remote"]⟩),
          [⟨true, ["remote"]⟩])) ∧
    ((⟨true, ["base", "com.example.App"]⟩ : RPath) ∈
        [(⟨true, ["base", "com.example.App"]⟩ : RPath)] ∧
      (Apps.DataDirectory.mk none
          (Except.ok ⟨true, ["base"]⟩)).resolve_and_create "com.example.App"
          [⟨true, ["base", "com.example.App"]⟩] =
        (Except.ok ⟨true, ["base", "com.example.App"]⟩,
          [⟨true, ["base", "com.example.App"]⟩])) :=
  ⟨c8_resolve_and_create_idempotent.1
      (VXDbus.ConfigDirectory.mk none VXDbus.ConfigDirectoryPriority.default
        (Except.error BaseDirectoryError.NoCandidate)
        (Except.ok ⟨true, ["remote"]⟩))
      (VXDbus.ConfigDirectory.mk (some ⟨true, ["remote"]⟩)
        VXDbus.ConfigDirectoryPriority.default
        (Except.error BaseDirectoryError.NoCandidate)
        (Except.ok ⟨true, ["remote"]⟩))
      [] [⟨true, ["remote"]⟩] ⟨true, ["remote"]⟩ rfl,
    c8_resolve_and_create_idempotent.2
      (Apps.DataDirectory.mk none (Except.ok ⟨true, ["base"]⟩))
      "com.example.App" [] [⟨true, ["base", "com.example.App"]⟩]
      ⟨true, ["base", "com.example.App"]⟩ rfl⟩

/-- C6: for every path, each category's default verifier checks existence
first, then is-directory, then — for the data, state, and runtime
categories but not for config — is-absolute, short-circuiting on the first
failing predicate (the probe trace equals the spec's short-circuit
evaluation, and the config verifier never probes absoluteness), and the
result is true exactly when all applicable predicates hold. -/
theorem c6_verify_short_circuits (fs : FsInt) (path : RPath) :
    DefaultConfigVerifier.verifyT fs path =
      specShortCircuit [(FsProbe.probeExists path, fs.exists' path),
        (FsProbe.probeIsDir path, fs.is_directory path)] ∧
    (DefaultConfigVerifier.verifyT fs path).1 =
      (fs.exists' path && fs.is_directory path) ∧
    FsProbe.probeIsAbs path ∉ (DefaultConfigVerifier.verifyT fs path).2 ∧
    DefaultDataVerifier.verifyT fs path =
      specShortCircuit [(FsProbe.probeExists path, fs.exists' path),
        (FsProbe.probeIsDir path, fs.is_directory path),
        (FsProbe.probeIsAbs path, fs.is_absolute path)] ∧
    (DefaultDataVerifier.verifyT fs path).1 =
      (fs.exists' path && fs.is_directory path && fs.is_absolute path) ∧
    DefaultStateVerifier.verifyT fs path = DefaultDataVerifier.verifyT fs path ∧
    DefaultRuntimeVerifier.verifyT fs path = DefaultDataVerifier.verifyT fs path := by
  cases h1 : fs.exists' path <;> cases h2 : fs.is_directory path <;>
    cases h3 : fs.is_absolute path <;>
      simp [DefaultConfigVerifier.verifyT, DefaultDataVerifier.verifyT,
        DefaultStateVerifier.verifyT, DefaultRuntimeVerifier.verifyT,
        specShortCircuit, h1, h2, h3]

/-- C9 (code bug): the runtime category's priority table does not keep one
entry per compiled-in strategy: there are two compiled-in runtime strategies
but the default table has a single entry, and `set_all` takes three entries
drawn from the two-valued method type, so every replacement it can build
contains strictly fewer distinct methods than entries (a duplicate). -/
theorem c9_runtime_priority_table_malformed :
    Xdg.RuntimeDirectoryPriority.default.order.length = 1 ∧
    Fintype.card Xdg.RuntimeDirectoryResolutionMethods = 2 ∧
    ∀ m0 m1 m2 : Xdg.RuntimeDirectoryResolutionMethods,
      (Xdg.RuntimeDirectoryPriority.set_all m0 m1 m2).order.toFinset.card <
        (Xdg.RuntimeDirectoryPriority.set_all m0 m1 m2).order.length := by
  refine ⟨rfl, rfl, by decide⟩

/-- C10: on the base-layer `ConfigDirectory` (xdg layer and the historical
layer alike) no public operation ever writes the cached `config_path` field
— every operation takes the receiver immutably — so after any call history
starting at `new`, converting the instance into a plain path
(`Into<PathBuf>`, i.e. `config_path.unwrap()`) panics. -/
theorem c10_into_pathbuf_always_panics (env : EnvMap) (ver : RPath → Bool)
    (ops : List Xdg.ConfigOp) :
    ((Xdg.ConfigDirectory.new env ver).applyOps ops).intoPathBuf = ROut.panicked ∧
    ((BaseCfg.ConfigDirectory.new env ver).applyOps ops).intoPathBuf = ROut.panicked := by
  rw [xdg_applyOps_id, baseCfg_applyOps_id]
  exact ⟨rfl, rfl⟩

/-- C4 (code bug): the application-feature config resolver
(src/src/voxels/config.rs) never populates its cache: `resolve()` takes the
instance immutably, so after a successful `resolve()` the instance is
unchanged, `is_resolved()` is still false, and every further `resolve()`
call delegates to the base resolver again (one base invocation per call)
instead of being observably free of underlying probes. -/
theorem c4_apps_config_resolve_never_caches (b : RPath)
    (m : BaseCfg.ConfigDirectoryResolutionMethods) :
    (Apps.ConfigDirectory.new (ROut.ok (b, m))).resolve =
      (ROut.ok (b.join ⟨false, ["voxels"]⟩), 1) ∧
    (Apps.ConfigDirectory.new (ROut.ok (b, m))).is_resolved = false ∧
    (VXNoDbus.ConfigDirectory.mk none
        [VXNoDbus.ConfigDirectoryResolutionMethods.FromXDG]
        (Except.ok (b, Xdg.ConfigDirectoryResolutionMethods.FromXDG))).resolve =
      (Except.ok (b.join ⟨false, ["voxels"]⟩),
        VXNoDbus.ConfigDirectory.mk (some (b.join ⟨false, ["voxels"]⟩))
          [VXNoDbus.ConfigDirectoryResolutionMethods.FromXDG]
          (Except.ok (b, Xdg.ConfigDirectoryResolutionMethods.FromXDG)), 1) ∧
    (VXNoDbus.ConfigDirectory.mk (some (b.join ⟨false, ["voxels"]⟩))
        [VXNoDbus.ConfigDirectoryResolutionMethods.FromXDG]
        (Except.ok (b, Xdg.ConfigDirectoryResolutionMethods.FromXDG))).resolve =
      (Except.ok (b.join ⟨false, ["voxels"]⟩),
        VXNoDbus.ConfigDirectory.mk (some (b.join ⟨false, ["voxels"]⟩))
          [VXNoDbus.ConfigDirectoryResolutionMethods.FromXDG]
          (Except.ok (b, Xdg.ConfigDirectoryResolutionMethods.FromXDG)), 0) :=
  ⟨rfl, rfl, rfl, rfl⟩

/-- C5 (code bug): in the dbus-enabled application config resolver with the
default priority (DBus first, XDG second), a failed DBus method call (e.g.
one that exhausted the fixed 1-second proxy timeout) makes `resolve()`
abort inside `resolve_using_dbus` (`.unwrap()` on the reply) instead of
failing over: the same instance's `resolve_using_xdg` would have succeeded
through the base resolver. -/
theorem c5_dbus_failure_does_not_fail_over :
    (VXDbus.ConfigDirectory.mk none VXDbus.ConfigDirectoryPriority.default
        (Except.ok (⟨true, ["base"]⟩, Xdg.ConfigDirectoryResolutionMethods.FromXDG))
        (Except.error ())).resolve =
      (ROut.panicked,
        VXDbus.ConfigDirectory.mk none VXDbus.ConfigDirectoryPriority.default
          (Except.ok (⟨true, ["base"]⟩, Xdg.ConfigDirectoryResolutionMethods.FromXDG))
          (Except.error ()), 0) ∧
    (VXDbus.ConfigDirectory.mk none VXDbus.ConfigDirectoryPriority.default
        (Except.ok (⟨true, ["base"]⟩, Xdg.ConfigDirectoryResolutionMethods.FromXDG))
        (Except.error ())).resolve_using_xdg =
      (ROut.ok ⟨true, ["base", "voxels"]⟩,
        VXDbus.ConfigDirectory.mk (some ⟨true, ["base", "voxels"]⟩)
          VXDbus.ConfigDirectoryPriority.default
          (Except.ok (⟨true, ["base"]⟩, Xdg.ConfigDirectoryResolutionMethods.FromXDG))
          (Except.error ()), 1) :=
  ⟨rfl, rfl⟩

/-- C7: `ApplicationRDN` construction accepts `"com.example.App"`, rejects
`"example"` (no separator), `"1com.example"` (digit-initial segment), the
empty string, and every 256-character name; and on ASCII names (the scope of
this model's character classification — byte length and character count
coincide there) it accepts exactly the names satisfying the claim's
predicate: non-empty, at most 255 characters, at least one separator, every
separator-delimited segment non-empty and not digit-initial, and all
characters alphanumeric, underscore, or the separator. -/
theorem c7_application_rdn_validation :
    ApplicationRDN.new "com.example.App".toList =
      Except.ok ⟨"com.example.App".toList⟩ ∧
    ApplicationRDN.new "example".toList =
      Except.error ApplicationErrors.InvalidName ∧
    ApplicationRDN.new "1com.example".toList =
      Except.error ApplicationErrors.InvalidName ∧
    ApplicationRDN.new "".toList = Except.error ApplicationErrors.InvalidName ∧
    (∀ name : List Char, name.length = 256 →
      ApplicationRDN.new name = Except.error ApplicationErrors.InvalidName) ∧
    (∀ name : List Char, (∀ c ∈ name, c.toNat ≤ 127) →
      (ApplicationRDN.new name = Except.ok ⟨name⟩ ↔
        rdnClaimAccepts name = true)) := by
  refine ⟨by decide, by decide, by decide, by decide, ?_, ?_⟩
  · intro name h256
    have hle := length_le_rustUtf8Len name
    have hgt : rustUtf8Len name > 255 := by omega
    have hcond : (decide (rustUtf8Len name > 255) || name.isEmpty) = true := by
      rw [Bool.or_eq_true, decide_eq_true_eq]
      exact Or.inl hgt
    simp [ApplicationRDN.new, hcond]
  · intro name hascii
    have hlen := rustUtf8Len_of_ascii name hascii
    unfold ApplicationRDN.new
    split_ifs with h1 h2 h3 h4
    · refine iff_of_false (by simp) ?_
      intro hcl
      have h1a : rustUtf8Len name > 255 ∨ name.isEmpty = true := by simpa using h1
      unfold rdnClaimAccepts at hcl
      simp only [Bool.and_eq_true] at hcl
      obtain ⟨⟨⟨⟨hne, h255⟩, -⟩, -⟩, -⟩ := hcl
      rw [Bool.not_eq_true'] at hne
      rw [decide_eq_true_eq] at h255
      rcases h1a with h | h
      · rw [hlen] at h
        omega
      · rw [h] at hne
        simp at hne
    · refine iff_of_false (by simp) ?_
      intro hcl
      have h2a : name.count '.' = 0 := by simpa using h2
      unfold rdnClaimAccepts at hcl
      simp only [Bool.and_eq_true] at hcl
      obtain ⟨⟨⟨⟨-, -⟩, hcont⟩, -⟩, -⟩ := hcl
      simp at hcont
      exact (List.count_eq_zero.mp h2a) hcont
    · refine iff_of_false (by simp) ?_
      intro hcl
      have h3a : segmentsOk (name.splitOn '.') = false := by simpa using h3
      rw [segmentsOk_eq_all] at h3a
      unfold rdnClaimAccepts at hcl
      simp only [Bool.and_eq_true] at hcl
      obtain ⟨⟨⟨⟨-, -⟩, -⟩, hsegs⟩, -⟩ := hcl
      rw [h3a] at hsegs
      simp at hsegs
    · refine iff_of_false (by simp) ?_
      intro hcl
      have h4a : 0 < (name.filter
          (fun c => !char_is_alphanumeric c && c != '_' && c != '.')).length := by
        simpa using h4
      unfold rdnClaimAccepts at hcl
      simp only [Bool.and_eq_true] at hcl
      obtain ⟨⟨⟨⟨-, -⟩, -⟩, -⟩, hall⟩ := hcl
      rw [List.all_eq_true] at hall
      have hnil : name.filter
          (fun c => !char_is_alphanumeric c && c != '_' && c != '.') = [] := by
        rw [List.filter_eq_nil_iff]
        intro c hc
        rw [charClassBad c (hall c hc)]
        simp
      rw [hnil] at h4a
      simp at h4a
    · refine iff_of_true rfl ?_
      have h1a : ¬(rustUtf8Len name > 255 ∨ name.isEmpty = true) := by simpa using h1
      push_neg at h1a
      have h2a : name.count '.' ≠ 0 := by simpa using h2
      have h3a : segmentsOk (name.splitOn '.') = true := by simpa using h3
      have h4a : (name.filter
          (fun c => !char_is_alphanumeric c && c != '_' && c != '.')).length = 0 := by
        have : ¬ 0 < (name.filter
            (fun c => !char_is_alphanumeric c && c != '_' && c != '.')).length := by
          simpa using h4
        omega
      unfold rdnClaimAccepts
      simp only [Bool.and_eq_true]
      refine ⟨⟨⟨⟨?_, ?_⟩, ?_⟩, ?_⟩, ?_⟩
      · rw [Bool.not_eq_true']
        have := h1a.2
        revert this
        cases name.isEmpty <;> simp
      · rw [decide_eq_true_eq]
        have := h1a.1
        omega
      · have hmem : '.' ∈ name := by
          by_contra hnm
          exact h2a (List.count_eq_zero.mpr hnm)
        simpa using hmem
      · rw [← segmentsOk_eq_all]
        exact h3a
      · rw [List.all_eq_true]
        intro c hc
        have hbad := List.filter_eq_nil_iff.mp (List.length_eq_zero.mp h4a) c hc
        exact charClassGood c (by simpa using hbad)

/-- Closed instantiation of `c7_application_rdn_validation`: the general
256-character rejection applied to 256 copies of `'a'`, and the ASCII
characterisation applied to `"com.example.App"`. -/
theorem c7_application_rdn_validation_witness :
    ApplicationRDN.new (List.replicate 256 'a') =
      Except.error ApplicationErrors.InvalidName ∧
    (ApplicationRDN.new "com.example.App".toList =
        Except.ok ⟨"com.example.App".toList⟩ ↔
      rdnClaimAccepts "com.example.App".toList = true) :=
  ⟨c7_application_rdn_validation.2.2.2.2.1 (List.replicate 256 'a')
      (by rw [List.length_replicate]),
    c7_application_rdn_validation.2.2.2.2.2 "com.example.App".toList (by decide)⟩

end VoxelsDirs
